import Mathlib

/-!
# Verification of the Tetris state-transition core (src/main.ts)

A shallow embedding of the pure game-logic functions of the browser Tetris
implementation: the data model (`CubeProps`, `Piece`, `State`), the collision
engine, the transition functions (move left/right, hard drop, rotate, tick,
restart) and grid maintenance (registration, row elimination, scoring,
game-over detection).

Conventions of the embedding:
* The source stores cube coordinates as decimal strings and converts with
  `Number`/`String` at every use; these conversions are mutually inverse on
  integers, so coordinates are embedded as `Int` pixel values.  All other
  `CubeProps` fields are carried verbatim as strings.
* `Block.WIDTH = CANVAS_WIDTH / GRID_WIDTH = 20` and
  `Block.HEIGHT = CANVAS_HEIGHT / GRID_HEIGHT = 20`.
* `Math.floor(a / 20)` on integers is floor division, which for the positive
  divisor 20 coincides with Lean's `Int` division `a / 20`.
* `Math.floor(Math.random() * list.length)` always yields an index in range
  for a non-empty list; the random draw is made explicit as a `Nat` parameter
  `r`, reduced modulo the list length.
* The grid is `List (List (Option CubeProps))`; a `null` cell is `none`.
  Cell reads/writes out of range are embedded as `none` reads / no-op writes;
  the source only reads or writes cells after its own bounds checks, so the
  two semantics agree on every input the source itself handles.
-/

namespace Tetris

/-- Grid dimensions from the `Constants` object. -/
def GRID_WIDTH : Int := 10

/-- Grid dimensions from the `Constants` object. -/
def GRID_HEIGHT : Int := 20

/-- Pixel width of one block: `Block.WIDTH = CANVAS_WIDTH / GRID_WIDTH = 200 / 10`. -/
def BLOCK_WIDTH : Int := 20

/-- Pixel height of one block: `Block.HEIGHT = CANVAS_HEIGHT / GRID_HEIGHT = 400 / 20`. -/
def BLOCK_HEIGHT : Int := 20

/-- The `CubeProps` record: visual attributes of one block.  `x`, `y` are the
pixel coordinates (stored by the source as decimal strings). -/
structure CubeProps where
  height : String
  width : String
  x : Int
  y : Int
  style : String
deriving DecidableEq

/-- A piece: shape tag, locked flag and the list of its blocks. -/
structure Piece where
  shape : String
  static : Bool
  cubeList : List CubeProps
deriving DecidableEq

/-- The game grid: `GRID_HEIGHT` rows of `GRID_WIDTH` cells, `none` = empty. -/
abbrev Grid := List (List (Option CubeProps))

/-- The whole game state. -/
structure State where
  gameEnd : Bool
  gameGrid : Grid
  storedPieces : List Piece
  currentPiece : Piece
  nextPiece : Piece
  level : Nat
  score : Nat
  highScore : Nat
deriving DecidableEq

/-- Grid column of a cube: `Math.floor(Number(cubeProps.x) / Block.WIDTH)`. -/
def cubeColumn (c : CubeProps) : Int := c.x / BLOCK_WIDTH

/-- Grid row of a cube: `Math.floor(Number(cubeProps.y) / Block.HEIGHT)`. -/
def cubeRow (c : CubeProps) : Int := c.y / BLOCK_HEIGHT

/-- Reading `gameGrid[y][x]`, as a total function: `none` when out of range (the source
only reads a cell after checking `0 <= x < GRID_WIDTH` and
`0 <= y < GRID_HEIGHT`). -/
def cellAt (gameGrid : Grid) (y x : Int) : Option CubeProps :=
  if 0 ≤ y ∧ 0 ≤ x then (gameGrid.getD y.toNat []).getD x.toNat none
  else none

/-- Writing `gameGrid[y][x] = v`, as a functional update; no-op out of range (the source
only writes cells of registered pieces, which lie in range). -/
def setCell (gameGrid : Grid) (y x : Int) (v : Option CubeProps) : Grid :=
  if 0 ≤ y ∧ 0 ≤ x then
    gameGrid.set y.toNat ((gameGrid.getD y.toNat []).set x.toNat v)
  else gameGrid

/-- Block construction (`createCube` inside `preparePieces`): `x`, `y` are 1-based cell coordinates. -/
def createCube (x y : Int) : CubeProps :=
  { height := "20", width := "20"
    x := BLOCK_WIDTH * (x - 1), y := BLOCK_HEIGHT * (y - 1)
    style := "fill: green" }

/-- Piece construction (`createPiece` inside `preparePieces`). -/
def createPiece (shape : String) (positions : List (Int × Int)) : Piece :=
  { shape := shape, static := false
    cubeList := positions.map fun pos => createCube pos.1 pos.2 }

/-- The fixed catalog of the seven prototype pieces (`preparePieces`). -/
def preparePieces : List Piece :=
  [ createPiece "O" [(5, 1), (6, 1), (5, 2), (6, 2)]
  , createPiece "I" [(6, 1), (6, 2), (6, 3), (6, 4)]
  , createPiece "J" [(4, 1), (5, 1), (6, 1), (6, 2)]
  , createPiece "L" [(4, 1), (5, 1), (6, 1), (4, 2)]
  , createPiece "T" [(4, 1), (5, 1), (6, 1), (5, 2)]
  , createPiece "S" [(5, 1), (6, 1), (4, 2), (5, 2)]
  , createPiece "Z" [(4, 1), (5, 1), (5, 2), (6, 2)] ]

/-- Fallback piece for the (unreachable) empty-catalog read. -/
def defaultPiece : Piece := { shape := "", static := false, cubeList := [] }

/-- Random piece selection (`getRandomPiece`): `Math.floor(Math.random() * length)` is
always in range for a non-empty list; the draw is the explicit parameter `r`,
reduced modulo the length. -/
def getRandomPiece (storedPieces : List Piece) (r : Nat) : Piece :=
  storedPieces.getD (r % storedPieces.length) defaultPiece

/-- The empty `GRID_HEIGHT × GRID_WIDTH` grid built by `initialState`,
`restartGame` and `eliminateRow`. -/
def emptyGrid : Grid := List.replicate 20 (List.replicate 10 none)

/-- Initial state (`initialState`); `r1`, `r2` are the two random draws. -/
def initialState (r1 r2 : Nat) : State :=
  { gameEnd := false
    gameGrid := emptyGrid
    storedPieces := preparePieces
    currentPiece := getRandomPiece preparePieces r1
    nextPiece := getRandomPiece preparePieces r2
    level := 0
    score := 0
    highScore := 0 }

/-- Collision test (`isCollision`, current revision, main.ts lines 157-171): some cube,
translated by `(offsetX, offsetY)`, leaves the grid on any side — including
a negative target row — or lands on an occupied cell. -/
def isCollision (piece : Piece) (gameGrid : Grid) (offsetX offsetY : Int) : Bool :=
  piece.cubeList.any fun cubeProps =>
    let targetX := cubeColumn cubeProps + offsetX
    let targetY := cubeRow cubeProps + offsetY
    decide (targetX < 0) || decide (targetX ≥ GRID_WIDTH) ||
    decide (targetY < 0) || decide (targetY ≥ GRID_HEIGHT) ||
    (cellAt gameGrid targetY targetX).isSome

/-- Left-collision helper (`isCollisionLeft`). -/
def isCollisionLeft (piece : Piece) (gameGrid : Grid) : Bool :=
  isCollision piece gameGrid (-1) 0

/-- Right-collision helper (`isCollisionRight`). -/
def isCollisionRight (piece : Piece) (gameGrid : Grid) : Bool :=
  isCollision piece gameGrid 1 0

/-- Down-collision helper (`isCollisionDown`). -/
def isCollisionDown (piece : Piece) (gameGrid : Grid) : Bool :=
  isCollision piece gameGrid 0 1

/-- Move the current piece one column left when legal (`movePieceLeft`). -/
def movePieceLeft (s : State) : State :=
  if (s.currentPiece.cubeList.all fun cubeProps => decide (cubeColumn cubeProps > 0)) &&
      !isCollisionLeft s.currentPiece s.gameGrid then
    { s with currentPiece :=
        { s.currentPiece with cubeList :=
            s.currentPiece.cubeList.map fun cubeProps =>
              { cubeProps with x := cubeProps.x - BLOCK_WIDTH } } }
  else s

/-- Move the current piece one column right when legal (`movePieceRight`). -/
def movePieceRight (s : State) : State :=
  if (s.currentPiece.cubeList.all fun cubeProps =>
        decide (cubeColumn cubeProps < GRID_WIDTH - 1)) &&
      !isCollisionRight s.currentPiece s.gameGrid then
    { s with currentPiece :=
        { s.currentPiece with cubeList :=
            s.currentPiece.cubeList.map fun cubeProps =>
              { cubeProps with x := cubeProps.x + BLOCK_WIDTH } } }
  else s

/-- Gravity step (`descend`): move every cube one row down when no down-collision, otherwise
lock the piece (`static := true`). -/
def descend (piece : Piece) (gameGrid : Grid) : Piece :=
  if !isCollisionDown piece gameGrid then
    { piece with cubeList :=
        piece.cubeList.map fun cubeProps =>
          { cubeProps with y := cubeProps.y + BLOCK_HEIGHT } }
  else { piece with static := true }

/-- Hard drop (`movePieceDown`).  The source recurses unboundedly; the
embedding makes the recursion depth explicit as fuel, returning the state
as-is when the fuel runs out.  The termination theorem shows fuel
`GRID_HEIGHT` already suffices on reachable states, so on them the embedding
with any fuel ≥ `GRID_HEIGHT` computes exactly the source recursion. -/
def movePieceDownF : Nat → State → State
  | 0, s => s
  | n + 1, s =>
    let updatedPiece := descend s.currentPiece s.gameGrid
    if isCollisionDown updatedPiece s.gameGrid then
      { s with currentPiece := updatedPiece }
    else
      movePieceDownF n { s with currentPiece := updatedPiece }

/-- Candidate rotation (`rotatePieceTemporarily`).  Here `centerX`/`centerY`
are `Number(piece.cubeList[0].x)` / `.y` — the stored corner coordinates of
the first cube — while each cube is taken at its center (`+ Block.WIDTH/2`,
`+ Block.HEIGHT/2`) before rotating and converted back afterwards. -/
def rotatePieceTemporarily (piece : Piece) : Piece :=
  let centerX := (piece.cubeList.headD (createCube 1 1)).x
  let centerY := (piece.cubeList.headD (createCube 1 1)).y
  { piece with cubeList :=
      piece.cubeList.map fun cubeProps =>
        let x := cubeProps.x + BLOCK_WIDTH / 2
        let y := cubeProps.y + BLOCK_HEIGHT / 2
        let deltaX := x - centerX
        let deltaY := y - centerY
        let newX := centerX + deltaY
        let newY := centerY - deltaX
        { cubeProps with x := newX - BLOCK_WIDTH / 2, y := newY - BLOCK_HEIGHT / 2 } }

/-- Rotation (`rotatePiece`): rotate any non-"O" piece when the candidate has no left,
right or down collision; otherwise (or for "O") return the state unchanged. -/
def rotatePiece (s : State) : State :=
  if s.currentPiece.shape ≠ "O" then
    let rotatedPiece := rotatePieceTemporarily s.currentPiece
    if !isCollisionLeft rotatedPiece s.gameGrid &&
        !isCollisionRight rotatedPiece s.gameGrid &&
        !isCollisionDown rotatedPiece s.gameGrid then
      { s with currentPiece := rotatedPiece }
    else s
  else s

/-- Registration (`registerGameGrid`): copy a locked piece's cubes into the grid. -/
def registerGameGrid (gameGrid : Grid) (piece : Piece) : Grid :=
  if piece.static then
    piece.cubeList.foldl
      (fun g cubeProps => setCell g (cubeRow cubeProps) (cubeColumn cubeProps) (some cubeProps))
      gameGrid
  else gameGrid

/-- Scoring (`ScoreAdjustment`): fold `+1` per fully occupied row onto the score, then
take the high score. -/
def ScoreAdjustment (gameGrid : Grid) (score highScore : Nat) : Nat × Nat :=
  let updatedScore := gameGrid.foldl
    (fun acc row => if row.all fun cubeProps => cubeProps.isSome then acc + 1 else acc)
    score
  let updatedHighScore := if updatedScore > highScore then updatedScore else highScore
  (updatedScore, updatedHighScore)

/-- Game-over test (`checkGameOver`): some cell of row 0 is occupied. -/
def checkGameOver (gameGrid : Grid) : Bool :=
  (gameGrid.headD []).any fun cubeProps => cubeProps.isSome

/-- Row elimination (`eliminateRow`, current revision, main.ts lines 422-434): drop every row
with no empty cell, prepend as many fresh empty rows.  This revision does not
touch the `y` fields of the surviving cells. -/
def eliminateRow (s : State) : State :=
  let updatedGameGrid := s.gameGrid.filter fun row => row.any fun cell => cell.isNone
  let clearedLines := s.gameGrid.length - updatedGameGrid.length
  let newRows : Grid := List.replicate clearedLines (List.replicate 10 none)
  { s with gameGrid := newRows ++ updatedGameGrid }

/-- Piece replacement (`checkAndReplacePiece`); `r` is the random draw for the new next piece. -/
def checkAndReplacePiece (currentState : State) (r : Nat) : State :=
  if !currentState.gameEnd && currentState.currentPiece.static then
    { currentState with
        currentPiece := currentState.nextPiece
        nextPiece := getRandomPiece preparePieces r }
  else currentState

/-- Restart (`restartGame`); `r1`, `r2` are the two random draws. -/
def restartGame (s : State) (r1 r2 : Nat) : State :=
  { s with
      gameEnd := false
      gameGrid := emptyGrid
      storedPieces := preparePieces
      currentPiece := getRandomPiece preparePieces r1
      nextPiece := getRandomPiece preparePieces r2
      level := 0
      score := 0 }

/-- Timer transition (`tick`); `r` is the random draw used when the piece is replaced. -/
def tick (s : State) (r : Nat) : State :=
  let updatedPiece := descend s.currentPiece s.gameGrid
  let updatedGrid := registerGameGrid s.gameGrid updatedPiece
  let scores := ScoreAdjustment updatedGrid s.score s.highScore
  let gameEnd := checkGameOver updatedGrid
  let updatedState : State :=
    { s with
        gameGrid := updatedGrid
        currentPiece := updatedPiece
        gameEnd := gameEnd
        level := scores.1
        score := scores.1
        highScore := scores.2 }
  let stateAfterElimination := eliminateRow updatedState
  checkAndReplacePiece stateAfterElimination r

/-! ## Claim-side specification functions and concrete scenarios -/

/-- Modelled from the spec: the collision predicate exactly as claim C1 words
it — a block exits the grid horizontally, exits below the grid, or lands on
an already-occupied cell, while a negative target row is not by itself a
collision.  Compared against the source `isCollision`, which additionally
rejects `targetY < 0`. -/
def isCollisionClaim (piece : Piece) (gameGrid : Grid) (offsetX offsetY : Int) : Bool :=
  piece.cubeList.any fun cubeProps =>
    let targetX := cubeColumn cubeProps + offsetX
    let targetY := cubeRow cubeProps + offsetY
    decide (targetX < 0) || decide (targetX ≥ GRID_WIDTH) ||
    decide (targetY ≥ GRID_HEIGHT) ||
    (cellAt gameGrid targetY targetX).isSome

/-- Modelled from the spec: the candidate rotation exactly as claim C5 words
it — every block's center rotated 90° clockwise about the center of the
piece's first block.  Compared against the source `rotatePieceTemporarily`,
whose pivot is the first block's stored corner coordinates. -/
def rotateCandidateSpec (piece : Piece) : Piece :=
  let pivotX := (piece.cubeList.headD (createCube 1 1)).x + BLOCK_WIDTH / 2
  let pivotY := (piece.cubeList.headD (createCube 1 1)).y + BLOCK_HEIGHT / 2
  { piece with cubeList :=
      piece.cubeList.map fun cubeProps =>
        let x := cubeProps.x + BLOCK_WIDTH / 2
        let y := cubeProps.y + BLOCK_HEIGHT / 2
        let newX := pivotX + (y - pivotY)
        let newY := pivotY - (x - pivotX)
        { cubeProps with x := newX - BLOCK_WIDTH / 2, y := newY - BLOCK_HEIGHT / 2 } }

/-- Rotation of block centers about a pivot `(px, py)`, stated claim-side:
the image cube keeps every visual attribute and its center is the 90°
clockwise rotation (in screen coordinates) of the original center about the
pivot. -/
def rotatedAbout (px py : Int) (c c2 : CubeProps) : Prop :=
  (c2.x + BLOCK_WIDTH / 2) - px = (c.y + BLOCK_HEIGHT / 2) - py ∧
  (c2.y + BLOCK_HEIGHT / 2) - py = -((c.x + BLOCK_WIDTH / 2) - px) ∧
  c2.height = c.height ∧ c2.width = c.width ∧ c2.style = c.style

/-- Number of fully occupied rows of a grid, stated claim-side. -/
def numFullRows (gameGrid : Grid) : Nat :=
  (gameGrid.filter fun row => row.all fun cubeProps => cubeProps.isSome).length

/-- A piece whose block list is non-empty with all blocks at non-negative
pixel height: true of every catalog piece and preserved by every transition. -/
def goodPiece (p : Piece) : Prop :=
  p.cubeList ≠ [] ∧ ∀ c ∈ p.cubeList, 0 ≤ c.y

/-- States whose current and next piece are `goodPiece`. -/
def GoodState (s : State) : Prop :=
  goodPiece s.currentPiece ∧ goodPiece s.nextPiece

/-- The states reachable from the initial state by the game's transitions.
Every random draw of the source is quantified, and the hard drop appears with
every fuel, so every value the source recursion can return is covered. -/
inductive Reachable : State → Prop where
  | init (r1 r2 : Nat) : Reachable (initialState r1 r2)
  | tickStep (s : State) (r : Nat) : Reachable s → Reachable (tick s r)
  | left (s : State) : Reachable s → Reachable (movePieceLeft s)
  | right (s : State) : Reachable s → Reachable (movePieceRight s)
  | down (s : State) (n : Nat) : Reachable s → Reachable (movePieceDownF n s)
  | rot (s : State) : Reachable s → Reachable (rotatePiece s)
  | restart (s : State) (r1 r2 : Nat) : Reachable s → Reachable (restartGame s r1 r2)

/-- A single cube parked at row 0, column 0. -/
def cube00 : CubeProps :=
  { height := "20", width := "20", x := 0, y := 0, style := "fill: green" }

/-- A grid row holding only `cube00` in column 0. -/
def rowWithCube00 : List (Option CubeProps) := some cube00 :: List.replicate 9 none

/-- A fully occupied grid row (all ten cells hold a block of row 20). -/
def fullRow : List (Option CubeProps) := List.replicate 10 (some (createCube 1 20))

/-- A grid whose top row holds one block and whose bottom row is full. -/
def gridTopAndFull : Grid :=
  rowWithCube00 :: (List.replicate 18 (List.replicate 10 none) ++ [fullRow])

/-- A grid that is empty except for `cube00` in row 0. -/
def gridTopOnly : Grid := rowWithCube00 :: List.replicate 19 (List.replicate 10 none)

/-- A 20 × 10 grid with exactly two fully occupied rows (the bottom two). -/
def gridTwoFull : Grid :=
  List.replicate 18 (List.replicate 10 none) ++ [fullRow, fullRow]

/-- The O piece resting on the floor (columns 4-5, rows 18-19), not locked. -/
def pieceOBottom : Piece :=
  { shape := "O", static := false
    cubeList := [ { height := "20", width := "20", x := 80, y := 360, style := "fill: green" }
                , { height := "20", width := "20", x := 100, y := 360, style := "fill: green" }
                , { height := "20", width := "20", x := 80, y := 380, style := "fill: green" }
                , { height := "20", width := "20", x := 100, y := 380, style := "fill: green" } ] }

/-- The O piece against the left wall (columns 0-1, rows 0-1). -/
def pieceOEdge : Piece :=
  { shape := "O", static := false
    cubeList := [ { height := "20", width := "20", x := 0, y := 0, style := "fill: green" }
                , { height := "20", width := "20", x := 20, y := 0, style := "fill: green" }
                , { height := "20", width := "20", x := 0, y := 20, style := "fill: green" }
                , { height := "20", width := "20", x := 20, y := 20, style := "fill: green" } ] }

/-- The T piece three rows below its spawn (columns 3-5, rows 3-4). -/
def pieceTLow : Piece :=
  { shape := "T", static := false
    cubeList := [ { height := "20", width := "20", x := 60, y := 60, style := "fill: green" }
                , { height := "20", width := "20", x := 80, y := 60, style := "fill: green" }
                , { height := "20", width := "20", x := 100, y := 60, style := "fill: green" }
                , { height := "20", width := "20", x := 80, y := 80, style := "fill: green" } ] }

/-- A single-cube piece at row 0, column 5, for the C1 counterexample. -/
def pieceTop : Piece :=
  { shape := "I", static := false
    cubeList := [ { height := "20", width := "20", x := 100, y := 0, style := "fill: green" } ] }

/-- Scenario for claim C3: one block in the top row and a full bottom row. -/
def sC3 : State := { initialState 0 0 with gameGrid := gridTopAndFull }

/-- Scenario for claim C4's counterexample: the game-over flag is set, row 0
is occupied, and the current piece rests unlocked on the floor. -/
def sBad : State :=
  { initialState 0 0 with
      gameEnd := true
      gameGrid := gridTopOnly
      currentPiece := pieceOBottom }

/-- Scenario for claim C4's witness: as `sBad` but with the piece locked. -/
def sLocked : State :=
  { initialState 0 0 with
      gameEnd := true
      gameGrid := gridTopOnly
      currentPiece := { pieceOBottom with static := true } }

/-- Scenario for claim C5: the low T piece on an empty grid, where the
rotation is accepted. -/
def sT : State := { initialState 0 0 with currentPiece := pieceTLow }

/-- Scenario for claim C7's boundary case: the O piece against the left wall. -/
def sEdge : State := { initialState 0 0 with currentPiece := pieceOEdge }

/-! ## General lemmas about the collision engine and the transitions -/

lemma isCollision_eq_true_iff (piece : Piece) (gameGrid : Grid) (offsetX offsetY : Int) :
    isCollision piece gameGrid offsetX offsetY = true ↔
      ∃ c ∈ piece.cubeList,
        cubeColumn c + offsetX < 0 ∨ GRID_WIDTH ≤ cubeColumn c + offsetX ∨
        cubeRow c + offsetY < 0 ∨ GRID_HEIGHT ≤ cubeRow c + offsetY ∨
        (cellAt gameGrid (cubeRow c + offsetY) (cubeColumn c + offsetX)).isSome = true := by
  unfold isCollision
  simp only [List.any_eq_true, Bool.or_eq_true, decide_eq_true_eq, ge_iff_le]
  constructor
  · rintro ⟨c, hc, h⟩
    exact ⟨c, hc, by tauto⟩
  · rintro ⟨c, hc, h⟩
    exact ⟨c, hc, by tauto⟩

lemma isCollision_eq_false_iff (piece : Piece) (gameGrid : Grid) (offsetX offsetY : Int) :
    isCollision piece gameGrid offsetX offsetY = false ↔
      ∀ c ∈ piece.cubeList,
        0 ≤ cubeColumn c + offsetX ∧ cubeColumn c + offsetX < GRID_WIDTH ∧
        0 ≤ cubeRow c + offsetY ∧ cubeRow c + offsetY < GRID_HEIGHT ∧
        (cellAt gameGrid (cubeRow c + offsetY) (cubeColumn c + offsetX)).isSome = false := by
  constructor
  · intro hfalse c hc
    have hnot : ¬ isCollision piece gameGrid offsetX offsetY = true := by simp [hfalse]
    rw [isCollision_eq_true_iff] at hnot
    push_neg at hnot
    have h2 := hnot c hc
    exact ⟨h2.1, h2.2.1, h2.2.2.1, h2.2.2.2.1,
      by simpa [Bool.not_eq_true] using h2.2.2.2.2⟩
  · intro h
    rw [← Bool.not_eq_true, isCollision_eq_true_iff]
    push_neg
    intro c hc
    have h2 := h c hc
    exact ⟨h2.1, h2.2.1, h2.2.2.1, h2.2.2.2.1, by simp [h2.2.2.2.2]⟩

lemma getRandomPiece_mem (r : Nat) : getRandomPiece preparePieces r ∈ preparePieces := by
  have h : r % preparePieces.length < preparePieces.length := Nat.mod_lt _ (by decide)
  unfold getRandomPiece
  rw [List.getD_eq_getElem _ _ h]
  exact List.getElem_mem h

lemma scoreFold (rows : Grid) : ∀ sc : Nat,
    rows.foldl (fun acc row => if row.all fun cubeProps => cubeProps.isSome then acc + 1 else acc) sc
      = sc + numFullRows rows := by
  induction rows with
  | nil => intro sc; simp [numFullRows]
  | cons r t ih =>
    intro sc
    rw [List.foldl_cons]
    cases h : (r.all fun cubeProps => cubeProps.isSome) with
    | true =>
      rw [if_pos rfl, ih]
      simp only [numFullRows, List.filter_cons, h, if_pos, List.length_cons]
      omega
    | false =>
      rw [if_neg (by simp), ih]
      simp [numFullRows, List.filter_cons, h]

lemma movePieceLeft_of_moved (s : State) (h : movePieceLeft s ≠ s) :
    movePieceLeft s =
      { s with currentPiece :=
          { s.currentPiece with cubeList :=
              s.currentPiece.cubeList.map fun cubeProps =>
                { cubeProps with x := cubeProps.x - BLOCK_WIDTH } } } := by
  by_cases hc : ((s.currentPiece.cubeList.all fun cubeProps => decide (cubeColumn cubeProps > 0)) &&
      !isCollisionLeft s.currentPiece s.gameGrid) = true
  · simp [movePieceLeft, hc]
  · exact absurd (by simp [movePieceLeft, hc]) h

lemma movePieceRight_of_moved (s : State) (h : movePieceRight s ≠ s) :
    movePieceRight s =
      { s with currentPiece :=
          { s.currentPiece with cubeList :=
              s.currentPiece.cubeList.map fun cubeProps =>
                { cubeProps with x := cubeProps.x + BLOCK_WIDTH } } } := by
  by_cases hc : ((s.currentPiece.cubeList.all fun cubeProps =>
        decide (cubeColumn cubeProps < GRID_WIDTH - 1)) &&
      !isCollisionRight s.currentPiece s.gameGrid) = true
  · simp [movePieceRight, hc]
  · exact absurd (by simp [movePieceRight, hc]) h

lemma map_sub_add_cancel (l : List CubeProps) :
    ((l.map fun cubeProps => { cubeProps with x := cubeProps.x - BLOCK_WIDTH }).map
        fun cubeProps => { cubeProps with x := cubeProps.x + BLOCK_WIDTH }) = l := by
  induction l with
  | nil => rfl
  | cons c t ih =>
    simp only [List.map_cons, ih]
    congr 1
    cases c with
    | mk h w x y st => simp [Int.sub_add_cancel]

lemma filterSplitLength (l : Grid) (p : List (Option CubeProps) → Bool) :
    (l.filter p).length + (l.filter fun a => !p a).length = l.length := by
  induction l with
  | nil => rfl
  | cons r t ih => cases h : p r <;> simp [List.filter_cons, h] <;> omega

lemma rowAnyNone (row : List (Option CubeProps)) :
    (row.any fun cell => cell.isNone) = !(row.all fun cubeProps => cubeProps.isSome) := by
  induction row with
  | nil => rfl
  | cons c t ih => cases c <;> simp [ih]

lemma descend_static (p : Piece) (g : Grid) (h : p.static = true) :
    (descend p g).static = true := by
  unfold descend
  split
  · exact h
  · rfl

lemma set_some_any (row : List (Option CubeProps)) (i : Nat) (v : CubeProps)
    (h : (row.any fun c => c.isSome) = true) :
    ((row.set i (some v)).any fun c => c.isSome) = true := by
  induction row generalizing i with
  | nil => simp at h
  | cons c t ih =>
    cases i with
    | zero => simp
    | succ n =>
      cases hc : c.isSome
      · simp only [List.any_cons, hc, Bool.false_or] at h
        simp only [List.set_cons_succ, List.any_cons, hc, Bool.false_or]
        exact ih n h
      · simp [List.set_cons_succ, List.any_cons, hc]

lemma setCell_preserves_top (g : Grid) (y x : Int) (v : CubeProps)
    (h : checkGameOver g = true) : checkGameOver (setCell g y x (some v)) = true := by
  unfold setCell
  split
  · cases g with
    | nil => simp [checkGameOver] at h
    | cons r t =>
      cases hy : y.toNat with
      | zero =>
        have hr : (r :: t).getD 0 [] = r := rfl
        rw [hr]
        show ((r.set x.toNat (some v)).any fun c => c.isSome) = true
        exact set_some_any r x.toNat v (by simpa [checkGameOver] using h)
      | succ n =>
        show checkGameOver ((r :: t).set (n + 1) _) = true
        simpa [checkGameOver, List.set] using h
  · exact h

lemma register_preserves_top (g : Grid) (p : Piece) (h : checkGameOver g = true) :
    checkGameOver (registerGameGrid g p) = true := by
  unfold registerGameGrid
  split
  · have key : ∀ (l : List CubeProps) (g0 : Grid), checkGameOver g0 = true →
        checkGameOver (l.foldl
          (fun acc c => setCell acc (cubeRow c) (cubeColumn c) (some c)) g0) = true := by
      intro l
      induction l with
      | nil => intro g0 hg; exact hg
      | cons c t ih => intro g0 hg; exact ih _ (setCell_preserves_top _ _ _ _ hg)
    exact key _ _ h
  · exact h

lemma checkAndReplacePiece_of_ended (s : State) (r : Nat) (h : s.gameEnd = true) :
    checkAndReplacePiece s r = s := by
  unfold checkAndReplacePiece
  rw [if_neg (by simp [h])]

lemma movePieceLeft_frame (s : State) :
    (movePieceLeft s).gameGrid = s.gameGrid ∧
    (movePieceLeft s).storedPieces = s.storedPieces ∧
    (movePieceLeft s).nextPiece = s.nextPiece ∧
    (movePieceLeft s).level = s.level ∧
    (movePieceLeft s).score = s.score ∧
    (movePieceLeft s).highScore = s.highScore ∧
    (movePieceLeft s).gameEnd = s.gameEnd := by
  unfold movePieceLeft
  split <;> exact ⟨rfl, rfl, rfl, rfl, rfl, rfl, rfl⟩

lemma movePieceRight_frame (s : State) :
    (movePieceRight s).gameGrid = s.gameGrid ∧
    (movePieceRight s).storedPieces = s.storedPieces ∧
    (movePieceRight s).nextPiece = s.nextPiece ∧
    (movePieceRight s).level = s.level ∧
    (movePieceRight s).score = s.score ∧
    (movePieceRight s).highScore = s.highScore ∧
    (movePieceRight s).gameEnd = s.gameEnd := by
  unfold movePieceRight
  split <;> exact ⟨rfl, rfl, rfl, rfl, rfl, rfl, rfl⟩

lemma rotatePiece_frame (s : State) :
    (rotatePiece s).gameGrid = s.gameGrid ∧
    (rotatePiece s).storedPieces = s.storedPieces ∧
    (rotatePiece s).nextPiece = s.nextPiece ∧
    (rotatePiece s).level = s.level ∧
    (rotatePiece s).score = s.score ∧
    (rotatePiece s).highScore = s.highScore ∧
    (rotatePiece s).gameEnd = s.gameEnd := by
  simp only [rotatePiece]
  split
  · split <;> exact ⟨rfl, rfl, rfl, rfl, rfl, rfl, rfl⟩
  · exact ⟨rfl, rfl, rfl, rfl, rfl, rfl, rfl⟩

/-! ## Claim theorems -/

/-- C1, counterexample: the source `isCollision` reports a collision for a
cube whose translated row is negative even though it stays inside the grid
horizontally, does not exit below, and lands on no occupied cell, while the
claim's reading of the predicate reports none. -/
theorem isCollision_negative_row_counterexample :
    isCollision pieceTop emptyGrid 0 (-1) = true ∧
    isCollisionClaim pieceTop emptyGrid 0 (-1) = false := by
  exact ⟨by decide, by decide⟩

/-- C1, amended: `isCollision` is true iff some block, translated by
`(dx, dy)`, would exit the grid horizontally, exit the grid vertically in
either direction — a negative target row is also a collision in this
revision — or land on an already-occupied cell. -/
theorem isCollision_characterization (piece : Piece) (gameGrid : Grid) (offsetX offsetY : Int) :
    isCollision piece gameGrid offsetX offsetY = true ↔
      ∃ c ∈ piece.cubeList,
        cubeColumn c + offsetX < 0 ∨ GRID_WIDTH ≤ cubeColumn c + offsetX ∨
        cubeRow c + offsetY < 0 ∨ GRID_HEIGHT ≤ cubeRow c + offsetY ∨
        (cellAt gameGrid (cubeRow c + offsetY) (cubeColumn c + offsetX)).isSome = true :=
  isCollision_eq_true_iff piece gameGrid offsetX offsetY

/-- C6: `ScoreAdjustment` adds one point per fully occupied row of the grid
to the score and takes the running maximum for the high score; in particular
on the 20 × 10 grid with exactly two full rows the score grows by exactly 2. -/
theorem ScoreAdjustment_spec (gameGrid : Grid) (score highScore : Nat) :
    ScoreAdjustment gameGrid score highScore
        = (score + numFullRows gameGrid, max (score + numFullRows gameGrid) highScore) ∧
    ScoreAdjustment gridTwoFull score highScore
        = (score + 2, max (score + 2) highScore) := by
  have key : ∀ (g : Grid) (sc hs : Nat),
      ScoreAdjustment g sc hs = (sc + numFullRows g, max (sc + numFullRows g) hs) := by
    intro g sc hs
    unfold ScoreAdjustment
    rw [scoreFold]
    refine Prod.ext rfl ?_
    show (if sc + numFullRows g > hs then sc + numFullRows g else hs) = _
    rw [Nat.max_def]
    split_ifs <;> omega
  have h2 : numFullRows gridTwoFull = 2 := by decide
  exact ⟨key gameGrid score highScore, by rw [key, h2]⟩

/-- C8: `restartGame` resets the game-over flag, grid, score and level,
draws the current and next piece freshly from the catalog, and carries the
high score over unchanged. -/
theorem restartGame_spec (s : State) (r1 r2 : Nat) :
    (restartGame s r1 r2).gameEnd = false ∧
    (restartGame s r1 r2).gameGrid = emptyGrid ∧
    (restartGame s r1 r2).score = 0 ∧
    (restartGame s r1 r2).level = 0 ∧
    (restartGame s r1 r2).highScore = s.highScore ∧
    (restartGame s r1 r2).currentPiece = getRandomPiece preparePieces r1 ∧
    (restartGame s r1 r2).nextPiece = getRandomPiece preparePieces r2 ∧
    (restartGame s r1 r2).currentPiece ∈ preparePieces ∧
    (restartGame s r1 r2).nextPiece ∈ preparePieces ∧
    (restartGame s r1 r2).storedPieces = preparePieces :=
  ⟨rfl, rfl, rfl, rfl, rfl, rfl, rfl, getRandomPiece_mem r1, getRandomPiece_mem r2, rfl⟩

/-- C9: `movePieceLeft`, `movePieceRight` and `rotatePiece` change at most
the `currentPiece` field: grid, stored pieces, next piece, level, score,
high score and game-over flag are returned unchanged. -/
theorem move_rotate_frame (s : State) :
    ((movePieceLeft s).gameGrid = s.gameGrid ∧
     (movePieceLeft s).storedPieces = s.storedPieces ∧
     (movePieceLeft s).nextPiece = s.nextPiece ∧
     (movePieceLeft s).level = s.level ∧
     (movePieceLeft s).score = s.score ∧
     (movePieceLeft s).highScore = s.highScore ∧
     (movePieceLeft s).gameEnd = s.gameEnd) ∧
    ((movePieceRight s).gameGrid = s.gameGrid ∧
     (movePieceRight s).storedPieces = s.storedPieces ∧
     (movePieceRight s).nextPiece = s.nextPiece ∧
     (movePieceRight s).level = s.level ∧
     (movePieceRight s).score = s.score ∧
     (movePieceRight s).highScore = s.highScore ∧
     (movePieceRight s).gameEnd = s.gameEnd) ∧
    ((rotatePiece s).gameGrid = s.gameGrid ∧
     (rotatePiece s).storedPieces = s.storedPieces ∧
     (rotatePiece s).nextPiece = s.nextPiece ∧
     (rotatePiece s).level = s.level ∧
     (rotatePiece s).score = s.score ∧
     (rotatePiece s).highScore = s.highScore ∧
     (rotatePiece s).gameEnd = s.gameEnd) :=
  ⟨movePieceLeft_frame s, movePieceRight_frame s, rotatePiece_frame s⟩

/-- C7: when the left move and the subsequent right move both change the
state, they restore it exactly; and a state whose current piece has a block
in column 0 is a fixed point of `movePieceLeft`, hence `movePieceLeft` is
idempotent there. -/
theorem moveLeftRight_inverse (s : State) :
    (movePieceLeft s ≠ s → movePieceRight (movePieceLeft s) ≠ movePieceLeft s →
        movePieceRight (movePieceLeft s) = s) ∧
    ((∃ c ∈ s.currentPiece.cubeList, cubeColumn c = 0) →
        movePieceLeft s = s ∧ movePieceLeft (movePieceLeft s) = movePieceLeft s) := by
  constructor
  · intro h1 h2
    have e1 := movePieceLeft_of_moved s h1
    have e2 := movePieceRight_of_moved (movePieceLeft s) h2
    rw [e1] at e2
    rw [e1, e2]
    show { s with currentPiece :=
        { s.currentPiece with cubeList :=
            ((s.currentPiece.cubeList.map fun cubeProps =>
                { cubeProps with x := cubeProps.x - BLOCK_WIDTH }).map fun cubeProps =>
                { cubeProps with x := cubeProps.x + BLOCK_WIDTH }) } } = s
    rw [map_sub_add_cancel]
  · rintro ⟨c, hc, hcol⟩
    have hall : (s.currentPiece.cubeList.all fun cubeProps =>
        decide (cubeColumn cubeProps > 0)) = false := by
      rw [List.all_eq_false]
      exact ⟨c, hc, by simp [hcol]⟩
    have h0 : movePieceLeft s = s := by simp [movePieceLeft, hall]
    exact ⟨h0, by rw [h0]; exact h0⟩

/-- C7, witness: on the freshly spawned O piece the left move then the right
move restore the initial state, and with the O piece against the left wall
the left move is a no-op. -/
theorem moveLeftRight_inverse_witness :
    movePieceRight (movePieceLeft (initialState 0 0)) = initialState 0 0 ∧
    movePieceLeft sEdge = sEdge :=
  ⟨(moveLeftRight_inverse (initialState 0 0)).1 (by decide) (by decide),
   ((moveLeftRight_inverse sEdge).2 (by decide)).1⟩

/-- C3, counterexample: after eliminating the full bottom row of `sC3`, the
block originally in row 0 sits in grid row 1 of the new grid, but its stored
vertical pixel position is still 0, not `BLOCK_HEIGHT * 1`: this revision of
`eliminateRow` does not re-number the `y` fields of surviving cells. -/
theorem eliminateRow_no_renumber_counterexample :
    ((eliminateRow sC3).gameGrid.getD 1 []).getD 0 none = some cube00 ∧
    cube00.y ≠ BLOCK_HEIGHT * 1 :=
  ⟨by decide, by decide⟩

/-- C3, amended: `eliminateRow` removes exactly the fully occupied rows,
prepends an equal number of empty rows, preserves the relative order of the
surviving rows and the grid dimensions — but carries the surviving cells over
verbatim, leaving their `y` fields unchanged rather than re-numbering them. -/
theorem eliminateRow_spec (s : State) (hw : ∀ row ∈ s.gameGrid, row.length = 10) :
    (eliminateRow s).gameGrid =
        List.replicate (numFullRows s.gameGrid) (List.replicate 10 none) ++
          (s.gameGrid.filter fun row => !(row.all fun cubeProps => cubeProps.isSome)) ∧
    (eliminateRow s).gameGrid.length = s.gameGrid.length ∧
    ∀ row ∈ (eliminateRow s).gameGrid, row.length = 10 := by
  have hfe : (s.gameGrid.filter fun row => row.any fun cell => cell.isNone)
      = s.gameGrid.filter fun row => !(row.all fun cubeProps => cubeProps.isSome) := by
    apply List.filter_congr
    intro row _
    exact rowAnyNone row
  have hlen := filterSplitLength s.gameGrid fun row => row.all fun cubeProps => cubeProps.isSome
  have hmain : (eliminateRow s).gameGrid =
      List.replicate (numFullRows s.gameGrid) (List.replicate 10 none) ++
        (s.gameGrid.filter fun row => !(row.all fun cubeProps => cubeProps.isSome)) := by
    show List.replicate
        (s.gameGrid.length -
          (s.gameGrid.filter fun row => row.any fun cell => cell.isNone).length)
        (List.replicate 10 none) ++
        (s.gameGrid.filter fun row => row.any fun cell => cell.isNone) = _
    rw [hfe]
    have : s.gameGrid.length -
        (s.gameGrid.filter fun row => !(row.all fun cubeProps => cubeProps.isSome)).length
        = numFullRows s.gameGrid := by
      unfold numFullRows
      omega
    rw [this]
  refine ⟨hmain, ?_, ?_⟩
  · rw [hmain]
    rw [List.length_append, List.length_replicate]
    unfold numFullRows
    omega
  · intro row hr
    rw [hmain] at hr
    rcases List.mem_append.mp hr with h | h
    · rw [List.eq_of_mem_replicate h]
      exact List.length_replicate 10 none
    · exact hw row (List.mem_filter.mp h).1

/-- C3, witness: the amended row-elimination theorem evaluated on the
concrete scenario `sC3`. -/
theorem eliminateRow_spec_witness :
    (eliminateRow sC3).gameGrid.length = sC3.gameGrid.length :=
  (eliminateRow_spec sC3 (by decide)).2.1

/-- C4, counterexample: in the state `sBad` the game-over flag is already
true, yet `tick` flips the current piece's locked flag from false to true —
the universally quantified claim fails. -/
theorem tick_gameEnd_static_counterexample :
    sBad.gameEnd = true ∧ sBad.currentPiece.static = false ∧
    (tick sBad 0).currentPiece.static = true :=
  ⟨rfl, rfl, by decide⟩

/-- C4, amended: any grid with an occupied cell in row 0 makes
`checkGameOver` true; and in any state where the game-over flag is set, the
current piece is already locked, and row 0 of the grid is genuinely occupied
(the configuration every post-game-over state is in), `tick` leaves the
piece's locked flag unchanged. -/
theorem tick_gameOver_inert :
    (∀ gameGrid : Grid, (∃ cell ∈ gameGrid.headD [], cell.isSome = true) →
        checkGameOver gameGrid = true) ∧
    (∀ (s : State) (r : Nat), s.gameEnd = true → s.currentPiece.static = true →
        checkGameOver s.gameGrid = true →
        (tick s r).currentPiece.static = s.currentPiece.static) := by
  constructor
  · rintro g ⟨cell, hc, hs⟩
    exact List.any_eq_true.mpr ⟨cell, hc, hs⟩
  · intro s r hEnd hStatic hTop
    have hds : (descend s.currentPiece s.gameGrid).static = true :=
      descend_static _ _ hStatic
    have hreg : checkGameOver
        (registerGameGrid s.gameGrid (descend s.currentPiece s.gameGrid)) = true :=
      register_preserves_top _ _ hTop
    rw [hStatic]
    simp only [tick]
    rw [checkAndReplacePiece_of_ended _ _ hreg]
    exact hds

/-- C4, witness: the amended theorem evaluated on the locked post-game-over
scenario `sLocked` and on the grid with an occupied top row. -/
theorem tick_gameOver_inert_witness :
    (tick sLocked 0).currentPiece.static = sLocked.currentPiece.static ∧
    checkGameOver gridTopOnly = true :=
  ⟨tick_gameOver_inert.2 sLocked 0 rfl rfl (by decide),
   tick_gameOver_inert.1 gridTopOnly (by decide)⟩

/-- C5, counterexample: on the low T piece over the empty grid, the claim's
candidate (centers rotated about the first block's center) is collision-free
in all three checked directions, so the claim predicts exactly it as the
result — but `rotatePiece` does rotate (the piece changes) to a different
block list: the code's pivot is the first block's corner, one row higher. -/
theorem rotatePiece_center_counterexample :
    (rotatePiece sT).currentPiece ≠ sT.currentPiece ∧
    (rotatePiece sT).currentPiece.cubeList ≠ (rotateCandidateSpec sT.currentPiece).cubeList ∧
    isCollisionLeft (rotateCandidateSpec sT.currentPiece) sT.gameGrid = false ∧
    isCollisionRight (rotateCandidateSpec sT.currentPiece) sT.gameGrid = false ∧
    isCollisionDown (rotateCandidateSpec sT.currentPiece) sT.gameGrid = false := by
  refine ⟨by decide, by decide, by decide, by decide, by decide⟩

/-- C5, amended: for a non-"O" piece the candidate is obtained by rotating
every block's center 90° clockwise about the point given by the first
block's stored corner coordinates (not its center), and it is accepted
exactly when it has no left, right or down collision; an "O" piece never
rotates. -/
theorem rotatePiece_spec (s : State) :
    (s.currentPiece.shape = "O" → rotatePiece s = s) ∧
    (s.currentPiece.shape ≠ "O" →
      List.Forall₂
          (rotatedAbout (s.currentPiece.cubeList.headD (createCube 1 1)).x
            (s.currentPiece.cubeList.headD (createCube 1 1)).y)
          s.currentPiece.cubeList (rotatePieceTemporarily s.currentPiece).cubeList ∧
      ((isCollisionLeft (rotatePieceTemporarily s.currentPiece) s.gameGrid = false ∧
        isCollisionRight (rotatePieceTemporarily s.currentPiece) s.gameGrid = false ∧
        isCollisionDown (rotatePieceTemporarily s.currentPiece) s.gameGrid = false) →
          rotatePiece s = { s with currentPiece := rotatePieceTemporarily s.currentPiece }) ∧
      ((isCollisionLeft (rotatePieceTemporarily s.currentPiece) s.gameGrid = true ∨
        isCollisionRight (rotatePieceTemporarily s.currentPiece) s.gameGrid = true ∨
        isCollisionDown (rotatePieceTemporarily s.currentPiece) s.gameGrid = true) →
          rotatePiece s = s)) := by
  constructor
  · intro hO
    simp [rotatePiece, hO]
  · intro hO
    refine ⟨?_, ?_, ?_⟩
    · show List.Forall₂ _ s.currentPiece.cubeList (s.currentPiece.cubeList.map _)
      rw [List.forall₂_map_right_iff, List.forall₂_same]
      intro c hc
      refine ⟨?_, ?_, rfl, rfl, rfl⟩ <;> · dsimp only [rotatedAbout]; ring
    · rintro ⟨hL, hR, hD⟩
      simp [rotatePiece, hO, hL, hR, hD]
    · intro hor
      rcases hor with h | h | h <;> simp [rotatePiece, hO, h]

/-- C5, witness: the amended theorem applied to the low T scenario, where the
rotation is accepted. -/
theorem rotatePiece_spec_witness :
    rotatePiece sT = { sT with currentPiece := rotatePieceTemporarily sT.currentPiece } :=
  ((rotatePiece_spec sT).2 (by decide)).2.1 ⟨by decide, by decide, by decide⟩

/-! ## Hard-drop termination and the reachable-state invariants -/

lemma movePieceDownF_succ (n : Nat) (s : State) :
    movePieceDownF (n + 1) s =
      if isCollisionDown (descend s.currentPiece s.gameGrid) s.gameGrid then
        { s with currentPiece := descend s.currentPiece s.gameGrid }
      else movePieceDownF n { s with currentPiece := descend s.currentPiece s.gameGrid } :=
  rfl

lemma movePieceDownF_frame (n : Nat) (s : State) :
    (movePieceDownF n s).gameGrid = s.gameGrid ∧
    (movePieceDownF n s).storedPieces = s.storedPieces ∧
    (movePieceDownF n s).nextPiece = s.nextPiece ∧
    (movePieceDownF n s).level = s.level ∧
    (movePieceDownF n s).score = s.score ∧
    (movePieceDownF n s).highScore = s.highScore ∧
    (movePieceDownF n s).gameEnd = s.gameEnd := by
  induction n generalizing s with
  | zero => exact ⟨rfl, rfl, rfl, rfl, rfl, rfl, rfl⟩
  | succ n ih =>
    rw [movePieceDownF_succ]
    split
    · exact ⟨rfl, rfl, rfl, rfl, rfl, rfl, rfl⟩
    · exact ih _

lemma isCollisionDown_static (p : Piece) (g : Grid) :
    isCollisionDown { p with static := true } g = isCollisionDown p g := rfl

lemma descend_of_coll (p : Piece) (g : Grid) (h : isCollisionDown p g = true) :
    descend p g = { p with static := true } := by
  unfold descend
  rw [if_neg (by simp [h])]

lemma descend_of_no_coll (p : Piece) (g : Grid) (h : isCollisionDown p g = false) :
    descend p g =
      { p with cubeList := p.cubeList.map fun cubeProps =>
          { cubeProps with y := cubeProps.y + BLOCK_HEIGHT } } := by
  unfold descend
  rw [if_pos (by simp [h])]

lemma cubeRow_add (c : CubeProps) :
    cubeRow { c with y := c.y + BLOCK_HEIGHT } = cubeRow c + 1 := by
  show (c.y + BLOCK_HEIGHT) / BLOCK_HEIGHT = c.y / BLOCK_HEIGHT + 1
  unfold BLOCK_HEIGHT
  omega

lemma collisionDown_of_high (p : Piece) (g : Grid) (c : CubeProps) (hc : c ∈ p.cubeList)
    (h : (19 : Int) ≤ cubeRow c) : isCollisionDown p g = true := by
  unfold isCollisionDown
  rw [isCollision_eq_true_iff]
  exact ⟨c, hc, Or.inr (Or.inr (Or.inr (Or.inl (by unfold GRID_HEIGHT; omega))))⟩

lemma md_stabilize : ∀ (k : Nat) (s : State),
    (∃ c ∈ s.currentPiece.cubeList, (19 : Int) - k ≤ cubeRow c) →
    isCollisionDown (movePieceDownF (k + 1) s).currentPiece
        (movePieceDownF (k + 1) s).gameGrid = true ∧
      ∀ n, k + 1 ≤ n → movePieceDownF n s = movePieceDownF (k + 1) s := by
  intro k
  induction k with
  | zero =>
    rintro s ⟨c, hc, hrow⟩
    have hcd : isCollisionDown s.currentPiece s.gameGrid = true :=
      collisionDown_of_high _ _ c hc (by omega)
    have hcd2 : isCollisionDown (descend s.currentPiece s.gameGrid) s.gameGrid = true := by
      rw [descend_of_coll _ _ hcd, isCollisionDown_static]
      exact hcd
    constructor
    · rw [movePieceDownF_succ, if_pos hcd2]
      exact hcd2
    · intro n hn
      obtain ⟨m, rfl⟩ : ∃ m, n = m + 1 := ⟨n - 1, by omega⟩
      rw [movePieceDownF_succ, movePieceDownF_succ, if_pos hcd2, if_pos hcd2]
  | succ k ih =>
    rintro s ⟨c, hc, hrow⟩
    by_cases hcd : isCollisionDown (descend s.currentPiece s.gameGrid) s.gameGrid = true
    · constructor
      · rw [movePieceDownF_succ, if_pos hcd]
        exact hcd
      · intro n hn
        obtain ⟨m, rfl⟩ : ∃ m, n = m + 1 := ⟨n - 1, by omega⟩
        rw [movePieceDownF_succ, movePieceDownF_succ, if_pos hcd, if_pos hcd]
    · have hnc : isCollisionDown s.currentPiece s.gameGrid = false := by
        cases hx : isCollisionDown s.currentPiece s.gameGrid with
        | false => rfl
        | true =>
          exfalso
          apply hcd
          rw [descend_of_coll _ _ hx, isCollisionDown_static]
          exact hx
      have hex : ∃ c2 ∈ (descend s.currentPiece s.gameGrid).cubeList,
          (19 : Int) - k ≤ cubeRow c2 := by
        refine ⟨{ c with y := c.y + BLOCK_HEIGHT }, ?_, ?_⟩
        · rw [descend_of_no_coll _ _ hnc]
          exact List.mem_map_of_mem _ hc
        · rw [cubeRow_add]
          push_cast at hrow ⊢
          omega
      obtain ⟨ih1, ih2⟩ :=
        ih { s with currentPiece := descend s.currentPiece s.gameGrid } hex
      constructor
      · rw [movePieceDownF_succ, if_neg hcd]
        exact ih1
      · intro n hn
        obtain ⟨m, rfl⟩ : ∃ m, n = m + 1 := ⟨n - 1, by omega⟩
        rw [movePieceDownF_succ, movePieceDownF_succ, if_neg hcd, if_neg hcd]
        exact ih2 m (by omega)

lemma preparePieces_good : ∀ p ∈ preparePieces, goodPiece p := by
  intro p hp
  unfold goodPiece
  fin_cases hp <;> exact ⟨by decide, by decide⟩

lemma getRandomPiece_good (r : Nat) : goodPiece (getRandomPiece preparePieces r) :=
  preparePieces_good _ (getRandomPiece_mem r)

lemma map_good (p : Piece) (f : CubeProps → CubeProps) (hf : ∀ c, (f c).y = c.y)
    (h : goodPiece p) : goodPiece { p with cubeList := p.cubeList.map f } := by
  constructor
  · exact fun hh => h.1 (List.map_eq_nil_iff.mp hh)
  · rintro c2 hc2
    obtain ⟨c, hc, rfl⟩ := List.mem_map.mp hc2
    rw [hf]
    exact h.2 c hc

lemma descend_good (p : Piece) (g : Grid) (h : goodPiece p) : goodPiece (descend p g) := by
  unfold descend
  split
  · refine ⟨fun hh => h.1 (List.map_eq_nil_iff.mp hh), ?_⟩
    rintro c2 hc2
    obtain ⟨c, hc, rfl⟩ := List.mem_map.mp hc2
    have := h.2 c hc
    show 0 ≤ c.y + BLOCK_HEIGHT
    unfold BLOCK_HEIGHT
    omega
  · exact h

lemma good_of_no_left_coll (p : Piece) (g : Grid) (hne : p.cubeList ≠ [])
    (h : isCollisionLeft p g = false) : goodPiece p := by
  refine ⟨hne, fun c hc => ?_⟩
  have h2 := (isCollision_eq_false_iff p g (-1) 0).mp h c hc
  have h3 : 0 ≤ cubeRow c + 0 := h2.2.2.1
  unfold cubeRow BLOCK_HEIGHT at h3
  omega

lemma goodState_movePieceDownF (n : Nat) (s : State) (h : GoodState s) :
    GoodState (movePieceDownF n s) := by
  induction n generalizing s with
  | zero => exact h
  | succ n ih =>
    rw [movePieceDownF_succ]
    split
    · exact ⟨descend_good _ _ h.1, h.2⟩
    · exact ih _ ⟨descend_good _ _ h.1, h.2⟩

lemma goodState_tick (s : State) (r : Nat) (h : GoodState s) : GoodState (tick s r) := by
  simp only [tick]
  unfold checkAndReplacePiece
  split
  · exact ⟨h.2, getRandomPiece_good r⟩
  · exact ⟨descend_good _ _ h.1, h.2⟩

lemma goodState_movePieceLeft (s : State) (h : GoodState s) : GoodState (movePieceLeft s) := by
  unfold movePieceLeft
  split
  · exact ⟨map_good _ _ (fun c => rfl) h.1, h.2⟩
  · exact h

lemma goodState_movePieceRight (s : State) (h : GoodState s) : GoodState (movePieceRight s) := by
  unfold movePieceRight
  split
  · exact ⟨map_good _ _ (fun c => rfl) h.1, h.2⟩
  · exact h

lemma goodState_rotatePiece (s : State) (h : GoodState s) : GoodState (rotatePiece s) := by
  simp only [rotatePiece]
  split
  · split
    · rename_i hcond
      have hL : isCollisionLeft (rotatePieceTemporarily s.currentPiece) s.gameGrid = false := by
        simp only [Bool.and_eq_true, Bool.not_eq_true'] at hcond
        exact hcond.1.1
      refine ⟨good_of_no_left_coll _ _ ?_ hL, h.2⟩
      show s.currentPiece.cubeList.map _ ≠ []
      exact fun hh => h.1.1 (List.map_eq_nil_iff.mp hh)
    · exact h
  · exact h

lemma reachable_good (s : State) (h : Reachable s) : GoodState s := by
  induction h with
  | init r1 r2 => exact ⟨getRandomPiece_good r1, getRandomPiece_good r2⟩
  | tickStep s r _ ih => exact goodState_tick s r ih
  | left s _ ih => exact goodState_movePieceLeft s ih
  | right s _ ih => exact goodState_movePieceRight s ih
  | down s n _ ih => exact goodState_movePieceDownF n s ih
  | rot s _ ih => exact goodState_rotatePiece s ih
  | restart s r1 r2 _ _ => exact ⟨getRandomPiece_good r1, getRandomPiece_good r2⟩

lemma checkAndReplacePiece_level_score (t : State) (r : Nat) (h : t.level = t.score) :
    (checkAndReplacePiece t r).level = (checkAndReplacePiece t r).score := by
  unfold checkAndReplacePiece
  split
  · exact h
  · exact h

/-- C2: on every reachable state the hard drop stabilizes within
`GRID_HEIGHT = 20` recursive steps — every larger fuel computes the same
state, so the source recursion terminates within 20 calls — the resulting
piece has a down-collision, and the grid (hence no intermediate position) is
never registered by the drop. -/
theorem movePieceDown_terminates (s : State) (h : Reachable s) :
    isCollisionDown (movePieceDownF 20 s).currentPiece
        (movePieceDownF 20 s).gameGrid = true ∧
    (movePieceDownF 20 s).gameGrid = s.gameGrid ∧
    ∀ n, 20 ≤ n → movePieceDownF n s = movePieceDownF 20 s := by
  have hg := reachable_good s h
  obtain ⟨c, hc⟩ := List.exists_mem_of_ne_nil _ hg.1.1
  have hrow : (19 : Int) - (19 : Nat) ≤ cubeRow c := by
    have hy := hg.1.2 c hc
    unfold cubeRow BLOCK_HEIGHT
    push_cast
    omega
  obtain ⟨h1, h2⟩ := md_stabilize 19 s ⟨c, hc, hrow⟩
  exact ⟨h1, (movePieceDownF_frame 20 s).1, h2⟩

/-- C2, witness: the hard-drop theorem evaluated on the initial state with
the O piece. -/
theorem movePieceDown_terminates_witness :
    isCollisionDown (movePieceDownF 20 (initialState 0 0)).currentPiece
        (movePieceDownF 20 (initialState 0 0)).gameGrid = true ∧
    (movePieceDownF 20 (initialState 0 0)).gameGrid = (initialState 0 0).gameGrid ∧
    movePieceDownF 25 (initialState 0 0) = movePieceDownF 20 (initialState 0 0) := by
  have h := movePieceDown_terminates (initialState 0 0) (Reachable.init 0 0)
  exact ⟨h.1, h.2.1, h.2.2 25 (by omega)⟩

/-- C10: in every reachable state the level equals the score — both start at
0, `tick` writes the same updated score into both, `restartGame` resets both
to 0, and no other transition touches either. -/
theorem reachable_level_eq_score (s : State) (h : Reachable s) : s.level = s.score := by
  induction h with
  | init r1 r2 => rfl
  | tickStep s r _ _ =>
    simp only [tick]
    exact checkAndReplacePiece_level_score _ _ rfl
  | left s _ ih =>
    rw [(movePieceLeft_frame s).2.2.2.1, (movePieceLeft_frame s).2.2.2.2.1]
    exact ih
  | right s _ ih =>
    rw [(movePieceRight_frame s).2.2.2.1, (movePieceRight_frame s).2.2.2.2.1]
    exact ih
  | down s n _ ih =>
    rw [(movePieceDownF_frame n s).2.2.2.1, (movePieceDownF_frame n s).2.2.2.2.1]
    exact ih
  | rot s _ ih =>
    rw [(rotatePiece_frame s).2.2.2.1, (rotatePiece_frame s).2.2.2.2.1]
    exact ih
  | restart s r1 r2 _ _ => rfl

/-- C10, witness: the invariant evaluated at the initial state. -/
theorem reachable_level_eq_score_witness :
    (initialState 0 0).level = (initialState 0 0).score :=
  reachable_level_eq_score (initialState 0 0) (Reachable.init 0 0)

end Tetris
